import Mathlib

/-!
Verification of the ProductSearch widget (script.js and the unnamed
companion file). The JavaScript class is shallowly embedded: DOM state
becomes an explicit `UIState` record, event handlers become state
transformers, numbers are `ℚ`, and fallible operations return `Except`.
-/

namespace ProductSearch

/-! ### Strings: model of String.prototype.trim -/

/-- Strip leading and trailing whitespace from a character list; this is the
behaviour of JavaScript `String.prototype.trim` (`searchTerm.trim()`). -/
def trimList (s : List Char) : List Char :=
  ((s.dropWhile Char.isWhitespace).reverse.dropWhile Char.isWhitespace).reverse

/-- Model of JavaScript `s.trim()` on `String`. -/
def jsTrim (s : String) : String :=
  String.mk (trimList s.data)

theorem dropWhile_dropWhile_same (p : α → Bool) :
    ∀ l : List α, (l.dropWhile p).dropWhile p = l.dropWhile p := by
  intro l
  induction l with
  | nil => rfl
  | cons a t ih =>
    by_cases h : p a
    · simp [List.dropWhile_cons, h, ih]
    · simp [List.dropWhile_cons, h]

theorem dropWhile_length_le (p : α → Bool) :
    ∀ l : List α, (l.dropWhile p).length ≤ l.length := by
  intro l
  induction l with
  | nil => exact Nat.le_refl 0
  | cons a t ih =>
    by_cases h : p a
    · simp only [List.dropWhile_cons, h, if_true]
      exact Nat.le_succ_of_le ih
    · simp [List.dropWhile_cons, h]

theorem dropWhile_eq_self_of_append (p : α → Bool) (r t l : List α)
    (hl : l.dropWhile p = l) (hrt : l = r ++ t) : r.dropWhile p = r := by
  cases r with
  | nil => rfl
  | cons a r2 =>
    have hpa : ¬ p a = true := by
      intro hpa
      have h1 : l.dropWhile p = (r2 ++ t).dropWhile p := by
        rw [hrt, List.cons_append, List.dropWhile_cons, if_pos hpa]
      have h2 : l.length ≤ (r2 ++ t).length := by
        calc l.length = (l.dropWhile p).length := by rw [hl]
          _ = ((r2 ++ t).dropWhile p).length := by rw [h1]
          _ ≤ (r2 ++ t).length := dropWhile_length_le p _
      rw [hrt] at h2
      simp only [List.cons_append, List.length_append, List.length_cons] at h2
      omega
    simp [List.dropWhile_cons, hpa]

theorem dropWhile_reverse_dropWhile (p : α → Bool) (l : List α)
    (hl : l.dropWhile p = l) :
    ((l.reverse.dropWhile p).reverse).dropWhile p = (l.reverse.dropWhile p).reverse := by
  have hsplit : l.reverse = l.reverse.takeWhile p ++ l.reverse.dropWhile p :=
    (List.takeWhile_append_dropWhile (p := p) (l := l.reverse)).symm
  have hrt : l = (l.reverse.dropWhile p).reverse ++ (l.reverse.takeWhile p).reverse := by
    calc l = l.reverse.reverse := (List.reverse_reverse l).symm
      _ = (l.reverse.takeWhile p ++ l.reverse.dropWhile p).reverse := by rw [← hsplit]
      _ = (l.reverse.dropWhile p).reverse ++ (l.reverse.takeWhile p).reverse := by
          rw [List.reverse_append]
  exact dropWhile_eq_self_of_append p _ _ l hl hrt

theorem trimList_trimList (s : List Char) : trimList (trimList s) = trimList s := by
  unfold trimList
  set p := Char.isWhitespace
  set d := (s.dropWhile p).reverse.dropWhile p with hd
  have h1 : (s.dropWhile p).dropWhile p = s.dropWhile p := dropWhile_dropWhile_same p s
  have h2 : d.reverse.dropWhile p = d.reverse :=
    dropWhile_reverse_dropWhile p (s.dropWhile p) h1
  rw [h2, List.reverse_reverse, hd, dropWhile_dropWhile_same]

theorem jsTrim_jsTrim (s : String) : jsTrim (jsTrim s) = jsTrim s := by
  show String.mk (trimList (String.mk (trimList s.data)).data) = String.mk (trimList s.data)
  rw [show (String.mk (trimList s.data)).data = trimList s.data from rfl, trimList_trimList]

/-! ### The product record (the fields the widget reads) -/

/-- A catalog product as consumed by the widget: `id`, `title`, `description`,
`price` (decimal, source currency), optional `rating`, optional `thumbnail`
URL and optional `images` list. -/
structure Product where
  id : Nat
  title : String
  description : Option String
  price : ℚ
  rating : Option ℚ
  thumbnail : Option String
  images : Option (List String)
deriving Repr, DecidableEq

/-- First product of the canned API response used in the specification. -/
def cannedA : Product :=
  { id := 1, title := "A", description := none, price := 10,
    rating := some (4.2 : ℚ), thumbnail := none, images := none }

/-- Second product of the canned API response used in the specification. -/
def cannedB : Product :=
  { id := 2, title := "B", description := none, price := 5,
    rating := some (4.8 : ℚ), thumbnail := none, images := none }

/-- The canned product list `[A, B]` in server (relevance) order. -/
def cannedProducts : List Product := [cannedA, cannedB]

/-! ### validateSearchInput -/

/-- Message shown when the trimmed search term is empty. -/
def emptyQueryMessage : String := "Please enter a product name to search"

/-- Message shown when the trimmed search term is shorter than 2 characters. -/
def tooShortMessage : String := "Search term must be at least 2 characters long"

/-- `validateSearchInput(searchTerm)`: trims the term, fails (showing an
error message) when the trimmed term is empty or shorter than 2 characters,
succeeds otherwise. The JS function shows the message and returns `false`;
here failure carries the message. -/
def validateSearchInput (searchTerm : String) : Except String Unit :=
  let trimmedTerm := jsTrim searchTerm
  if trimmedTerm.length = 0 then Except.error emptyQueryMessage
  else if trimmedTerm.length < 2 then Except.error tooShortMessage
  else Except.ok ()

/-! ### sortProducts -/

/-- `this.usdToInrRate = 83.5`. -/
def usdToInrRate : ℚ := (83.5 : ℚ)

/-- `convertToRupees(usdPrice)` returns `usdPrice * this.usdToInrRate`. -/
def convertToRupees (usdPrice : ℚ) : ℚ := usdPrice * usdToInrRate

/-- Model of `a.rating || 0` (absent rating treated as 0; a present rating
of 0 is also 0, so `getD` is faithful). -/
def ratingOrZero (p : Product) : ℚ := p.rating.getD 0

/-- Insert `x` into `acc`, placing it before the first element `y` whose
comparator value `cmp x y` is negative and after every earlier element;
used to realise a stable comparator sort. -/
def insertSorted (cmp : α → α → ℚ) (x : α) : List α → List α
  | [] => [x]
  | y :: ys => if cmp x y < 0 then x :: y :: ys else y :: insertSorted cmp x ys

/-- Model of `Array.prototype.sort(compare)` (stable per ECMAScript 2019):
element `a` ends up before `b` exactly when `compare a b < 0`, and elements
that compare equal keep their input order. -/
def jsStableSort (cmp : α → α → ℚ) (l : List α) : List α :=
  l.foldl (fun acc x => insertSorted cmp x acc) []

/-- `sortProducts(products, sortType)`: dispatch on the sort type; price
orders compare rupee-converted prices, `rating` compares `rating || 0`
descending, `relevance` and the default keep the input order. This gives the
contents of the array returned by the JS function. -/
def sortProducts (products : List Product) (sortType : String) : List Product :=
  match sortType with
  | "price-low" =>
      jsStableSort (fun a b => convertToRupees a.price - convertToRupees b.price) products
  | "price-high" =>
      jsStableSort (fun a b => convertToRupees b.price - convertToRupees a.price) products
  | "rating" =>
      jsStableSort (fun a b => ratingOrZero b - ratingOrZero a) products
  | "relevance" => products
  | _ => products

/-- Call-level model of `sortProducts`: JavaScript `Array.prototype.sort`
sorts the receiver in place and returns that same array, so after the call
the argument array holds the sorted contents. The first component is the
contents of the returned array, the second the contents of the argument
array after the call (for the `relevance`/default branches nothing is
reordered and both equal the input). -/
def sortProductsCall (products : List Product) (sortType : String) :
    List Product × List Product :=
  (sortProducts products sortType, sortProducts products sortType)

/-! ### generateStars -/

/-- Model of JavaScript string repetition `s.repeat(n)`. -/
def strRepeat (s : String) : Nat → String
  | 0 => ""
  | n + 1 => s ++ strRepeat s n

/-- Model of `rating % 1` for the non-negative ratings the widget handles:
JavaScript `%` truncates toward zero, which agrees with the floor for
non-negative operands. -/
def jsMod1 (r : ℚ) : ℚ := r - (⌊r⌋ : ℤ)

/-- `generateStars(rating)`: `Math.floor(rating)` full-star glyphs, one
additional glyph when `rating % 1 >= 0.5` (the `hasHalfStar` flag, used in
both the half slot and the `emptyStars` count), and
`5 - fullStars - hasHalfStar` trailing empty-star glyphs. The JS source
uses the same character for the half slot and the empty slot. -/
def generateStars (rating : ℚ) : String :=
  strRepeat "★" (⌊rating⌋).toNat ++
    (if jsMod1 rating ≥ 1/2 then "☆" else "") ++
    strRepeat "☆" (5 - ⌊rating⌋ - (if jsMod1 rating ≥ 1/2 then 1 else 0)).toNat

/-- Number of occurrences of the character `c` in a string. -/
def countChar (c : Char) (s : String) : Nat := s.data.count c

/-! ### escapeHtml and the product card -/

/-- Serialisation of one text-node character, as produced by assigning
`div.textContent` and reading back `div.innerHTML`: the markup-significant
characters are replaced by entities, everything else is kept. -/
def escapeHtmlChar (c : Char) : String :=
  if c = '&' then "&amp;"
  else if c = '<' then "&lt;"
  else if c = '>' then "&gt;"
  else String.singleton c

/-- `escapeHtml(text)`: HTML-escape a catalog string via a detached `div`. -/
def escapeHtml (text : String) : String :=
  String.join (text.data.map escapeHtmlChar)

/-- Model of the JavaScript `||` fallback on an optional string field
(`undefined` and the empty string are both falsy). -/
def jsOrString (v : Option String) (d : String) : String :=
  match v with
  | some s => if s = "" then d else s
  | none => d

/-- The `src` expression of the card image:
`product.thumbnail || product.images?.[0] || placeholder`. -/
def productImageSrc (product : Product) : String :=
  jsOrString product.thumbnail
    (jsOrString (product.images.bind List.head?)
      "https://via.placeholder.com/280x200?text=No+Image")

/-- Model of `Number.prototype.toFixed(1)` for the non-negative in-range
ratings the widget displays (round half away from zero, keep one decimal
digit). -/
def toFixed1 (r : ℚ) : String :=
  let n : Nat := (⌊r * 10 + 1/2⌋).toNat
  toString (n / 10) ++ "." ++ toString (n % 10)

/-- Group the reversed digit list of a number into Indian-system groups:
three digits, then pairs. -/
def chunkPairs : List Char → List (List Char)
  | [] => []
  | [a] => [[a]]
  | a :: b :: rest => [a, b] :: chunkPairs rest

/-- Indian-system digit grouping for a natural number, e.g. 1234567 to
`12,34,567`. -/
def formatIndian (n : Nat) : String :=
  let rev := (Nat.toDigits 10 n).reverse
  let groups := (rev.take 3 :: chunkPairs (rev.drop 3)).filter (fun g => ¬ g.isEmpty)
  String.intercalate "," (groups.reverse.map (fun g => String.mk g.reverse))

/-- `formatRupeePrice(usdPrice)`: convert to rupees and format via
`Intl.NumberFormat` for `en-IN`/INR with zero fraction digits (rupee sign,
half-away-from-zero rounding, Indian grouping). -/
def formatRupeePrice (usdPrice : ℚ) : String :=
  "₹" ++ formatIndian (⌊convertToRupees usdPrice + 1/2⌋).toNat

/-- Literal template text up to the value of the `src` attribute. -/
def cardImgOpen : String := "\n            <img\n                src=\""

/-- Literal template text between the `src` value and the `alt` attribute
(the closing quote of `src`, a newline and indentation). -/
def cardBeforeAlt : String := "\"\n                "

/-- Literal template text after the closing quote of the `alt` attribute,
up to the text node that holds the escaped title. -/
def cardAfterAlt : String :=
  "\n                class=\"product-image\"\n                onerror=\"this.src=\x27https://via.placeholder.com/280x200?text=No+Image\x27\"\n            >\n            <div class=\"product-info\">\n                <h3 class=\"product-title\">"

/-- Literal template text between the escaped title and the star glyphs. -/
def cardAfterTitle : String :=
  "</h3>\n                <div class=\"product-rating\">\n                    <span class=\"stars\">"

/-- Literal template text between the star glyphs and the numeric rating. -/
def cardAfterStars : String :=
  "</span>\n                    <span class=\"rating-text\">("

/-- Literal template text between the numeric rating and the description. -/
def cardAfterRating : String :=
  ")</span>\n                </div>\n                <p class=\"product-description\">"

/-- Literal template text between the description and the price. -/
def cardAfterDescription : String :=
  "</p>\n                <div class=\"product-price\">"

/-- Literal template text closing the card. -/
def cardClose : String := "</div>\n            </div>\n        "

/-- The `innerHTML` template assigned in `createProductCard(product)`,
written as the concatenation of its literal pieces and the interpolated
expressions. `product.title` is interpolated raw into the `alt` attribute
and the image URL raw into `src`; the title and the description are passed
through `escapeHtml` only in their text-node positions. -/
def createProductCardHtml (product : Product) : String :=
  let rating := product.rating.getD 0
  let stars := generateStars rating
  cardImgOpen ++ productImageSrc product ++ cardBeforeAlt ++
  ("alt=\"" ++ product.title ++ "\"") ++ cardAfterAlt ++
  escapeHtml product.title ++ cardAfterTitle ++ stars ++ cardAfterStars ++
  toFixed1 rating ++ cardAfterRating ++
  escapeHtml (jsOrString product.description "No description available") ++
  cardAfterDescription ++ formatRupeePrice product.price ++ cardClose

/-! ### Substring search -/

/-- `leadsWith pat l` is true when `pat` is an initial segment of `l`. -/
def leadsWith [DecidableEq α] : List α → List α → Bool
  | [], _ => true
  | _ :: _, [] => false
  | a :: ps, b :: l => decide (a = b) && leadsWith ps l

/-- `occursIn pat l` is true when `pat` occurs contiguously inside `l`. -/
def occursIn [DecidableEq α] (pat : List α) : List α → Bool
  | [] => leadsWith pat []
  | b :: l => leadsWith pat (b :: l) || occursIn pat l

/-- `containsStr s pat` is true when `pat` occurs as a substring of `s`. -/
def containsStr (s pat : String) : Bool := occursIn pat.data s.data

/-! ### searchProducts: request URL and response handling -/

/-- Hexadecimal digit character, uppercase. -/
def hexDigitChar (n : Nat) : Char :=
  if n < 10 then Char.ofNat (48 + n) else Char.ofNat (55 + n)

/-- Percent-encoding of one byte, e.g. 32 to `%20`. -/
def percentEncodeByte (b : Nat) : String :=
  "%" ++ String.singleton (hexDigitChar (b / 16)) ++ String.singleton (hexDigitChar (b % 16))

/-- UTF-8 bytes of a Unicode code point. -/
def utf8BytesOfCode (n : Nat) : List Nat :=
  if n < 128 then [n]
  else if n < 2048 then [192 + n / 64, 128 + n % 64]
  else if n < 65536 then [224 + n / 4096, 128 + n / 64 % 64, 128 + n % 64]
  else [240 + n / 262144, 128 + n / 4096 % 64, 128 + n / 64 % 64, 128 + n % 64]

/-- Characters `encodeURIComponent` leaves unescaped: ASCII letters, digits
and `- _ . ! ~ * \x27 ( )`. -/
def isUriUnreserved (c : Char) : Bool :=
  c.isAlpha || c.isDigit || [45, 95, 46, 33, 126, 42, 39, 40, 41].contains c.toNat

/-- Model of JavaScript `encodeURIComponent`. -/
def encodeURIComponent (s : String) : String :=
  String.join (s.data.map fun c =>
    if isUriUnreserved c then String.singleton c
    else String.join ((utf8BytesOfCode c.toNat).map percentEncodeByte))

/-- `this.apiBaseUrl`. -/
def apiBaseUrl : String := "https://dummyjson.com/products/search"

/-- The request URL built by `searchProducts` in the unnamed source file:
the template places the encoded query and a `limit=50` cap. -/
def searchUrl (searchTerm : String) : String :=
  apiBaseUrl ++ "?q=" ++ encodeURIComponent searchTerm ++ "&limit=50"

/-- The request URL built by `searchProducts` in `script.js`, which has no
`limit` parameter in its template. -/
def searchUrlLegacy (searchTerm : String) : String :=
  apiBaseUrl ++ "?q=" ++ encodeURIComponent searchTerm

/-- The parsed JSON body `{products: [...], total: n}`; a missing
`products` field is `none` (the JS code checks `!data.products`). -/
structure SearchResponse where
  products : Option (List Product)
  total : Nat
deriving Repr, DecidableEq

/-- The parts of a fetch `Response` the widget reads. -/
structure HttpResponse where
  status : Nat
  statusText : String
  body : SearchResponse
deriving Repr, DecidableEq

/-- `response.ok`: the HTTP status is in the success range 200-299. -/
def responseOk (response : HttpResponse) : Bool :=
  decide (200 ≤ response.status) && decide (response.status ≤ 299)

/-- `searchProducts` after the fetch resolves: a non-ok response throws
`Failed to fetch products: ${status} ${statusText}`, otherwise the parsed
body is returned. -/
def searchProducts (response : HttpResponse) : Except String SearchResponse :=
  if responseOk response then Except.ok response.body
  else Except.error
    ("Failed to fetch products: " ++ toString response.status ++ " " ++ response.statusText)

/-! ### The DOM state and the event handlers -/

/-- The pieces of DOM state the `ProductSearch` class reads and writes:
visibility classes, text contents, the grid (as the ordered list of products
whose cards it holds, each rendered with `createProductCardHtml`), the sort
select value and the two instance fields `currentSearchTerm` and
`currentProducts`. -/
structure UIState where
  errorMessage : String
  errorMessageShown : Bool
  searchInputErrorClass : Bool
  loadingHidden : Bool
  resultsHeaderHidden : Bool
  resultsTitle : String
  resultsCount : String
  productGrid : List Product
  noResultsHidden : Bool
  errorContainerHidden : Bool
  errorText : String
  sortSelectValue : String
  currentSearchTerm : String
  currentProducts : List Product
deriving Repr, DecidableEq

/-- `showError(message)`. -/
def showError (message : String) (st : UIState) : UIState :=
  { st with
    errorMessage := message, errorMessageShown := true, searchInputErrorClass := true }

/-- `clearError()`. -/
def clearError (st : UIState) : UIState :=
  { st with errorMessageShown := false, searchInputErrorClass := false }

/-- `hideAllSections()`: hide every section, empty the grid and reset the
sort select to `relevance`. -/
def hideAllSections (st : UIState) : UIState :=
  { st with
    loadingHidden := true, resultsHeaderHidden := true, productGrid := [],
    noResultsHidden := true, errorContainerHidden := true, sortSelectValue := "relevance" }

/-- `showLoading()`. -/
def showLoading (st : UIState) : UIState :=
  { hideAllSections st with loadingHidden := false }

/-- `hideLoading()`. -/
def hideLoading (st : UIState) : UIState :=
  { st with loadingHidden := true }

/-- `renderProducts(products)`: clear the grid and append one card per
product, in order. -/
def renderProducts (products : List Product) (st : UIState) : UIState :=
  { st with productGrid := products }

/-- `showResults(products, searchTerm, total)`. -/
def showResults (products : List Product) (searchTerm : String) (total : Nat)
    (st : UIState) : UIState :=
  renderProducts products
    { st with
      resultsHeaderHidden := false,
      resultsTitle := "Search Results for \"" ++ searchTerm ++ "\"",
      resultsCount := "Found " ++ toString total ++ " product" ++
        (if total ≠ 1 then "s" else "") }

/-- `showNoResults()`. -/
def showNoResults (st : UIState) : UIState :=
  { hideLoading st with noResultsHidden := false }

/-- `showErrorState(errorMessage)`. -/
def showErrorState (errorMessage : String) (st : UIState) : UIState :=
  { hideLoading st with
    errorText := errorMessage, errorContainerHidden := false }

/-- `displayResults(data, searchTerm)`: on an absent or empty product list
show the no-results section; otherwise store the list in `currentProducts`
and show it. -/
def displayResults (data : SearchResponse) (searchTerm : String) (st : UIState) : UIState :=
  let st1 := hideLoading st
  match data.products with
  | none => showNoResults st1
  | some [] => showNoResults st1
  | some ps => showResults ps searchTerm data.total { st1 with currentProducts := ps }

/-- `handleSortChange()`: nothing happens when no products are stored;
otherwise a spread copy of `currentProducts` is sorted (the copy, not the
stored list, is what `Array.prototype.sort` mutates) and rendered. -/
def handleSortChange (st : UIState) : UIState :=
  if st.currentProducts = [] then st
  else renderProducts (sortProducts st.currentProducts st.sortSelectValue) st

/-- A sort-order change event: the user sets the select to `v` and the
`change` listener runs `handleSortChange`. -/
def changeSort (st : UIState) (v : String) : UIState :=
  handleSortChange { st with sortSelectValue := v }

/-- `handleSearch(event)` with the network modelled as a function from the
query string to the result of `searchProducts`: trim, validate (showing the
validation message on failure), record the term, clear the inline error,
show the spinner, then display results or the error state. -/
def handleSearch (raw : String) (fetch : String → Except String SearchResponse)
    (st : UIState) : UIState :=
  let searchTerm := jsTrim raw
  match validateSearchInput searchTerm with
  | Except.error msg => showError msg st
  | Except.ok _ =>
    let st1 := showLoading (clearError { st with currentSearchTerm := searchTerm })
    match fetch searchTerm with
    | Except.ok data => displayResults data searchTerm st1
    | Except.error msg => showErrorState msg st1

/-- The DOM state right after the constructor runs on the static page. -/
def initState : UIState :=
  { errorMessage := "", errorMessageShown := false, searchInputErrorClass := false,
    loadingHidden := true, resultsHeaderHidden := true, resultsTitle := "",
    resultsCount := "", productGrid := [], noResultsHidden := true,
    errorContainerHidden := true, errorText := "", sortSelectValue := "relevance",
    currentSearchTerm := "", currentProducts := [] }

/-- A status-500 response used as the canonical non-2xx example. -/
def resp500 : HttpResponse :=
  { status := 500, statusText := "Internal Server Error", body := { products := none, total := 0 } }

/-! ### Helper lemmas about strings -/

theorem string_data_append (a b : String) : (a ++ b).data = a.data ++ b.data := by
  cases a
  cases b
  rfl

theorem string_append_assoc (a b c : String) : a ++ b ++ c = a ++ (b ++ c) := by
  cases a
  cases b
  cases c
  show String.mk _ = String.mk _
  rw [List.append_assoc]

theorem string_length_append (a b : String) : (a ++ b).length = a.length + b.length := by
  show (a ++ b).data.length = a.data.length + b.data.length
  rw [string_data_append, List.length_append]

theorem countChar_append (c : Char) (a b : String) :
    countChar c (a ++ b) = countChar c a + countChar c b := by
  unfold countChar
  rw [string_data_append, List.count_append]

theorem countChar_strRepeat (c : Char) (s : String) (n : Nat) :
    countChar c (strRepeat s n) = n * countChar c s := by
  induction n with
  | zero => simp [strRepeat, countChar]
  | succ m ih =>
    show countChar c (s ++ strRepeat s m) = (m + 1) * countChar c s
    rw [countChar_append, ih, Nat.succ_mul, Nat.add_comm]

theorem strRepeat_length (s : String) (n : Nat) :
    (strRepeat s n).length = n * s.length := by
  induction n with
  | zero => simp [strRepeat]
  | succ m ih =>
    show (s ++ strRepeat s m).length = (m + 1) * s.length
    rw [string_length_append, ih, Nat.succ_mul, Nat.add_comm]

/-! ### Helper lemmas about the embedded operations -/

theorem validate_ok_of_two_le (s : String) (h : 2 ≤ (jsTrim s).length) :
    validateSearchInput s = Except.ok () := by
  have h0 : ¬ ((jsTrim s).length = 0) := by omega
  have h1 : ¬ ((jsTrim s).length < 2) := by omega
  simp [validateSearchInput, h0, h1]

theorem displayResults_currentSearchTerm (data : SearchResponse) (term : String)
    (st : UIState) :
    (displayResults data term st).currentSearchTerm = st.currentSearchTerm := by
  rcases hp : data.products with _ | ps
  · simp [displayResults, hp, showNoResults, hideLoading]
  · cases ps with
    | nil => simp [displayResults, hp, showNoResults, hideLoading]
    | cons p t =>
        simp [displayResults, hp, showResults, renderProducts, hideLoading]

theorem changeSort_currentProducts (st : UIState) (v : String) :
    (changeSort st v).currentProducts = st.currentProducts := by
  unfold changeSort handleSortChange renderProducts
  split <;> rfl

theorem changeSort_productGrid (st : UIState) (v : String)
    (h : st.currentProducts ≠ []) :
    (changeSort st v).productGrid = sortProducts st.currentProducts v := by
  unfold changeSort handleSortChange renderProducts
  rw [if_neg h]

theorem sortProducts_relevance (l : List Product) : sortProducts l "relevance" = l := rfl

theorem sortedCannedPriceLow :
    sortProducts cannedProducts "price-low" = [cannedB, cannedA] := by
  norm_num [sortProducts, jsStableSort, insertSorted, cannedProducts, cannedA, cannedB,
    convertToRupees, usdToInrRate]

theorem sortedCannedRating :
    sortProducts cannedProducts "rating" = [cannedB, cannedA] := by
  norm_num [sortProducts, jsStableSort, insertSorted, cannedProducts, cannedA, cannedB,
    ratingOrZero]

theorem countChar_star_star : countChar '★' "★" = 1 := rfl

theorem countChar_star_hollow : countChar '★' "☆" = 0 := rfl

theorem countChar_hollow_hollow : countChar '☆' "☆" = 1 := rfl

theorem countChar_hollow_star : countChar '☆' "★" = 0 := rfl

theorem countChar_empty (c : Char) : countChar c "" = 0 := rfl

/-! ### The claims -/

/-- C1: for every raw input string, `validateSearchInput` fails with the
empty-query error when the trimmed string has length 0, fails with the
too-short error when the trimmed length is exactly 1, and succeeds when the
trimmed length is at least 2; in a successful `handleSearch` the query
recorded and sent is exactly the trimmed string. -/
theorem validate_trichotomy (raw : String) :
    ((jsTrim raw).length = 0 →
      validateSearchInput raw = Except.error emptyQueryMessage) ∧
    ((jsTrim raw).length = 1 →
      validateSearchInput raw = Except.error tooShortMessage) ∧
    (2 ≤ (jsTrim raw).length →
      validateSearchInput raw = Except.ok () ∧
      ∀ (fetch : String → Except String SearchResponse) (st : UIState),
        (handleSearch raw fetch st).currentSearchTerm = jsTrim raw) := by
  refine ⟨?_, ?_, ?_⟩
  · intro h
    simp [validateSearchInput, h]
  · intro h
    have h0 : ¬ ((jsTrim raw).length = 0) := by omega
    have h1 : (jsTrim raw).length < 2 := by omega
    simp [validateSearchInput, h0, h1]
  · intro h
    refine ⟨validate_ok_of_two_le raw h, ?_⟩
    intro fetch st
    have hv : validateSearchInput (jsTrim raw) = Except.ok () := by
      refine validate_ok_of_two_le (jsTrim raw) ?_
      rw [jsTrim_jsTrim]
      exact h
    cases hf : fetch (jsTrim raw) with
    | ok data =>
        simp [handleSearch, hv, hf, displayResults_currentSearchTerm, showLoading,
          hideAllSections, clearError]
    | error msg =>
        simp [handleSearch, hv, hf, showErrorState, hideLoading, showLoading,
          hideAllSections, clearError]

/-- Witness for C1 at concrete inputs covering the three branches. -/
theorem validate_trichotomy_check :
    validateSearchInput "   " = Except.error emptyQueryMessage ∧
    validateSearchInput " a " = Except.error tooShortMessage ∧
    validateSearchInput " ab " = Except.ok () ∧
    (handleSearch " ab " (fun _ => Except.error "network down") initState).currentSearchTerm
      = jsTrim " ab " := by
  refine ⟨(validate_trichotomy "   ").1 (by decide),
    (validate_trichotomy " a ").2.1 (by decide),
    ((validate_trichotomy " ab ").2.2 (by decide)).1,
    ((validate_trichotomy " ab ").2.2 (by decide)).2 _ _⟩

/-- A state holding the canned fetched products, as after a successful
search: used to witness the sort claims. -/
def demoResultsState : UIState :=
  { initState with currentProducts := cannedProducts }

/-- C2: applying a sort-change with any order A and then a sort-change back
to relevance yields exactly the stored server order (`currentProducts`);
every sort-change derives the grid from `currentProducts` only — the
displayed grid has no influence — and leaves `currentProducts` intact. -/
theorem sort_relevance_restores_server_order (st : UIState) (A : String)
    (h : st.currentProducts ≠ []) :
    (changeSort (changeSort st A) "relevance").productGrid = st.currentProducts ∧
    (∀ (v : String) (g : List Product),
      (changeSort { st with productGrid := g } v).productGrid
        = sortProducts st.currentProducts v) ∧
    (∀ v : String, (changeSort st v).currentProducts = st.currentProducts) := by
  refine ⟨?_, ?_, fun v => changeSort_currentProducts st v⟩
  · have h1 : (changeSort st A).currentProducts = st.currentProducts :=
      changeSort_currentProducts st A
    have h2 : (changeSort st A).currentProducts ≠ [] := by rw [h1]; exact h
    have h3 := changeSort_productGrid (changeSort st A) "relevance" h2
    rw [h3, h1, sortProducts_relevance]
  · intro v g
    have hg : ({ st with productGrid := g } : UIState).currentProducts ≠ [] := h
    exact changeSort_productGrid { st with productGrid := g } v hg

/-- Witness for C2 on the canned product list. -/
theorem sort_relevance_restores_server_order_check :
    demoResultsState.currentProducts ≠ [] ∧
    (changeSort (changeSort demoResultsState "price-low") "relevance").productGrid
      = demoResultsState.currentProducts := by
  have hne : demoResultsState.currentProducts ≠ [] := by
    simp [demoResultsState, initState, cannedProducts]
  exact ⟨hne, (sort_relevance_restores_server_order demoResultsState "price-low" hne).1⟩

/-- C3 counterexample: `sortProducts` does not leave its input sequence
unmutated — `Array.prototype.sort` sorts the argument array in place, so on
the canned input with order `price-low` the argument ends up reordered. -/
theorem sortProducts_mutates_input :
    (sortProductsCall cannedProducts "price-low").2 ≠ cannedProducts := by
  rw [show (sortProductsCall cannedProducts "price-low").2
      = sortProducts cannedProducts "price-low" from rfl, sortedCannedPriceLow]
  intro hEq
  have ht := congrArg (fun l => l.map Product.title) hEq
  simp [cannedA, cannedB, cannedProducts] at ht

/-- C3 amended: `sortProducts` sorts its argument in place and returns that
same array (after the call the input holds exactly the returned order); the
result depends only on the arguments; and the caller `handleSortChange`
passes a spread copy, so the stored `currentProducts` is never mutated. -/
theorem sortProducts_in_place_frame :
    (∀ (ps : List Product) (t : String),
      (sortProductsCall ps t).2 = (sortProductsCall ps t).1) ∧
    (∀ st : UIState, (handleSortChange st).currentProducts = st.currentProducts) ∧
    (sortProductsCall cannedProducts "price-low").2 = [cannedB, cannedA] := by
  refine ⟨fun ps t => rfl, ?_, sortedCannedPriceLow⟩
  intro st
  unfold handleSortChange renderProducts
  split <;> rfl

/-- C4: on the canned response, price-ascending and rating-descending both
yield [B, A] while relevance keeps [A, B]; price comparisons go through the
fixed rupee conversion and an absent rating counts as 0. -/
theorem sortProducts_canned_orders :
    sortProducts cannedProducts "price-low" = [cannedB, cannedA] ∧
    sortProducts cannedProducts "rating" = [cannedB, cannedA] ∧
    sortProducts cannedProducts "relevance" = [cannedA, cannedB] ∧
    convertToRupees cannedA.price = 835 ∧
    ratingOrZero { cannedA with rating := none } = 0 := by
  refine ⟨sortedCannedPriceLow, sortedCannedRating, rfl, ?_, rfl⟩
  norm_num [convertToRupees, usdToInrRate, cannedA]

/-- A product whose title carries markup, demonstrating injection. -/
def injectionProduct : Product :=
  { id := 1, title := "<script>", description := some "d", price := 1,
    rating := some 4, thumbnail := some "t.png", images := none }

/-- C5: the card template does not escape every catalog string — for every
product the title is interpolated raw (not through `escapeHtml`) into the
`alt` attribute, so a title carrying markup reaches the card HTML verbatim,
while `escapeHtml` would have neutralised it. -/
theorem createProductCard_title_not_escaped :
    (∀ product : Product, ∃ a b : String,
      createProductCardHtml product = a ++ ("alt=\"" ++ product.title ++ "\"") ++ b) ∧
    containsStr (createProductCardHtml injectionProduct) "alt=\"<script>\"" = true ∧
    escapeHtml "<script>" = "&lt;script&gt;" ∧
    containsStr (escapeHtml "<script>") "<" = false := by
  refine ⟨?_, by decide, by decide, by decide⟩
  intro product
  refine ⟨cardImgOpen ++ productImageSrc product ++ cardBeforeAlt,
    cardAfterAlt ++ escapeHtml product.title ++ cardAfterTitle ++
      generateStars (product.rating.getD 0) ++ cardAfterStars ++
      toFixed1 (product.rating.getD 0) ++ cardAfterRating ++
      escapeHtml (jsOrString product.description "No description available") ++
      cardAfterDescription ++ formatRupeePrice product.price ++ cardClose, ?_⟩
  simp only [createProductCardHtml, string_append_assoc]

/-- C6 counterexample: the `script.js` request URL for a valid query lacks
the `&limit=50` cap the claim asserts is always present. -/
theorem searchUrlLegacy_missing_limit :
    searchUrlLegacy "ab" ≠ apiBaseUrl ++ "?q=" ++ encodeURIComponent "ab" ++ "&limit=50" := by
  decide

/-- C6 amended: the `searchProducts` of the unnamed source file builds
exactly `{endpoint}?q={encodeURIComponent q}&limit=50`, while the
`searchProducts` of `script.js` builds `{endpoint}?q={encodeURIComponent q}`
with no limit parameter; the query is percent-encoded in both. -/
theorem searchUrl_contract :
    (∀ q : String, searchUrl q = apiBaseUrl ++ "?q=" ++ encodeURIComponent q ++ "&limit=50") ∧
    (∀ q : String, searchUrlLegacy q = apiBaseUrl ++ "?q=" ++ encodeURIComponent q) ∧
    encodeURIComponent "red car" = "red%20car" ∧
    searchUrl "red car" = "https://dummyjson.com/products/search?q=red%20car&limit=50" := by
  refine ⟨fun q => rfl, fun q => rfl, by decide, by decide⟩

/-- C7: a successful fetch whose parsed body has an absent or empty product
list drives the UI (after the loading phase) to the no-results state, not
the error state, with the grid empty and the error container hidden. -/
theorem displayResults_empty_noResults (st : UIState) (term : String)
    (data : SearchResponse) (h : data.products = none ∨ data.products = some []) :
    (displayResults data term (showLoading st)).noResultsHidden = false ∧
    (displayResults data term (showLoading st)).errorContainerHidden = true ∧
    (displayResults data term (showLoading st)).productGrid = [] ∧
    (displayResults data term (showLoading st)).loadingHidden = true := by
  rcases h with h | h <;>
    simp [displayResults, h, showNoResults, hideLoading, showLoading, hideAllSections]

/-- Witness for C7 on the canned empty response. -/
theorem displayResults_empty_noResults_check :
    (displayResults { products := some [], total := 0 } "x" (showLoading initState)).noResultsHidden
      = false ∧
    (displayResults { products := some [], total := 0 } "x" (showLoading initState)).errorContainerHidden
      = true := by
  have h := displayResults_empty_noResults initState "x"
    { products := some [], total := 0 } (Or.inr rfl)
  exact ⟨h.1, h.2.1⟩

/-- C8: a response with a status outside the success range makes
`searchProducts` fail with a message carrying that status, and a status-500
response drives `handleSearch` to the error state with a message containing
`500`. -/
theorem searchProducts_http_error :
    (∀ response : HttpResponse, responseOk response = false →
      ∃ m, searchProducts response = Except.error m ∧
        ∃ a b : String, m = a ++ toString response.status ++ b) ∧
    (∀ (st : UIState) (raw : String),
      validateSearchInput (jsTrim raw) = Except.ok () →
      (handleSearch raw (fun _ => searchProducts resp500) st).errorContainerHidden = false ∧
      containsStr (handleSearch raw (fun _ => searchProducts resp500) st).errorText "500"
        = true) := by
  constructor
  · intro response h
    refine ⟨"Failed to fetch products: " ++ toString response.status ++ " " ++
      response.statusText, ?_, "Failed to fetch products: ",
      " " ++ response.statusText, ?_⟩
    · simp [searchProducts, h]
    · exact string_append_assoc _ _ _
  · intro st raw hv
    have hresp : searchProducts resp500 =
        Except.error "Failed to fetch products: 500 Internal Server Error" := rfl
    constructor
    · simp [handleSearch, hv, hresp, showErrorState, hideLoading, showLoading,
        hideAllSections, clearError]
    · have he : (handleSearch raw (fun _ => searchProducts resp500) st).errorText
          = "Failed to fetch products: 500 Internal Server Error" := by
        simp [handleSearch, hv, hresp, showErrorState, hideLoading, showLoading,
          hideAllSections, clearError]
      rw [he]
      decide

/-- Witness for C8: the 500 response itself and the concrete flow. -/
theorem searchProducts_http_error_check :
    (∃ m, searchProducts resp500 = Except.error m ∧
      ∃ a b : String, m = a ++ toString resp500.status ++ b) ∧
    (handleSearch "tv" (fun _ => searchProducts resp500) initState).errorContainerHidden
      = false ∧
    containsStr (handleSearch "tv" (fun _ => searchProducts resp500) initState).errorText "500"
      = true := by
  refine ⟨searchProducts_http_error.1 resp500 (by decide), ?_, ?_⟩
  · exact (searchProducts_http_error.2 initState "tv" rfl).1
  · exact (searchProducts_http_error.2 initState "tv" rfl).2

/-- C9: for every rating in [0, 5] the star string has exactly 5 glyphs, of
which `Math.floor(rating)` are full stars and the rest are the hollow glyph
(used both for the half slot, filled exactly when the fractional part is at
least one half, and for the empty slots); the three canonical ratings
evaluate as the specification states. -/
theorem generateStars_spec :
    (∀ r : ℚ, 0 ≤ r → r ≤ 5 →
      (generateStars r).length = 5 ∧
      countChar '★' (generateStars r) = (⌊r⌋).toNat ∧
      countChar '☆' (generateStars r) = 5 - (⌊r⌋).toNat) ∧
    generateStars (3.5 : ℚ) = "★★★☆☆" ∧
    generateStars 0 = "☆☆☆☆☆" ∧
    generateStars 5 = "★★★★★" := by
  refine ⟨?_, ?_, ?_, ?_⟩
  · intro r h0 h5
    have hk0 : 0 ≤ ⌊r⌋ := Int.floor_nonneg.mpr h0
    have hk5 : ⌊r⌋ ≤ 5 := by
      have h := Int.floor_mono h5
      norm_num at h
      exact h
    by_cases hh : jsMod1 r ≥ 1/2
    · have hk4 : ⌊r⌋ ≤ 4 := by
        unfold jsMod1 at hh
        have hcast : (⌊r⌋ : ℚ) < 5 := by linarith
        have hlt : ⌊r⌋ < 5 := by exact_mod_cast hcast
        omega
      simp only [generateStars, if_pos hh]
      refine ⟨?_, ?_, ?_⟩
      · rw [string_length_append, string_length_append, strRepeat_length,
          strRepeat_length, show ("★" : String).length = 1 from rfl,
          show ("☆" : String).length = 1 from rfl]
        omega
      · rw [countChar_append, countChar_append, countChar_strRepeat,
          countChar_strRepeat, countChar_star_star, countChar_star_hollow]
        omega
      · rw [countChar_append, countChar_append, countChar_strRepeat,
          countChar_strRepeat, countChar_hollow_star, countChar_hollow_hollow]
        omega
    · simp only [generateStars, if_neg hh]
      refine ⟨?_, ?_, ?_⟩
      · rw [string_length_append, string_length_append, strRepeat_length,
          strRepeat_length, show ("★" : String).length = 1 from rfl,
          show ("☆" : String).length = 1 from rfl,
          show ("" : String).length = 0 from rfl]
        omega
      · rw [countChar_append, countChar_append, countChar_strRepeat,
          countChar_strRepeat, countChar_star_star, countChar_star_hollow,
          countChar_empty]
        omega
      · rw [countChar_append, countChar_append, countChar_strRepeat,
          countChar_strRepeat, countChar_hollow_star, countChar_hollow_hollow,
          countChar_empty]
        omega
  · norm_num [generateStars, jsMod1, strRepeat]
    rfl
  · norm_num [generateStars, jsMod1, strRepeat]
    rfl
  · norm_num [generateStars, jsMod1, strRepeat]
    rfl

/-- Witness for C9 at rating 3.5. -/
theorem generateStars_spec_check :
    (0 : ℚ) ≤ 3.5 ∧ (3.5 : ℚ) ≤ 5 ∧
    ((generateStars (3.5 : ℚ)).length = 5 ∧
      countChar '★' (generateStars (3.5 : ℚ)) = (⌊(3.5 : ℚ)⌋).toNat ∧
      countChar '☆' (generateStars (3.5 : ℚ)) = 5 - (⌊(3.5 : ℚ)⌋).toNat) :=
  ⟨by norm_num, by norm_num, generateStars_spec.1 (3.5 : ℚ) (by norm_num) (by norm_num)⟩

/-- C10: a search submission resets the sort select to relevance (inside
`showLoading`/`hideAllSections`) before the results arrive, and the
products of the new result set are first rendered exactly in server order. -/
theorem search_resets_sort (st : UIState) (raw : String)
    (fetch : String → Except String SearchResponse) (data : SearchResponse)
    (ps : List Product)
    (hv : validateSearchInput (jsTrim raw) = Except.ok ())
    (hf : fetch (jsTrim raw) = Except.ok data)
    (hp : data.products = some ps) (hne : ps ≠ []) :
    (handleSearch raw fetch st).sortSelectValue = "relevance" ∧
    (handleSearch raw fetch st).productGrid = ps ∧
    (handleSearch raw fetch st).currentProducts = ps := by
  cases ps with
  | nil => exact absurd rfl hne
  | cons p t =>
      refine ⟨?_, ?_, ?_⟩ <;>
        simp [handleSearch, hv, hf, displayResults, hp, showResults, renderProducts,
          hideLoading, showLoading, hideAllSections, clearError]

/-- Witness for C10: a concrete fetched list is first shown in server
order with the sort select back on relevance. -/
theorem search_resets_sort_check :
    (handleSearch "tv" (fun _ => Except.ok { products := some cannedProducts, total := 2 })
      initState).sortSelectValue = "relevance" ∧
    (handleSearch "tv" (fun _ => Except.ok { products := some cannedProducts, total := 2 })
      initState).productGrid = cannedProducts := by
  have h := search_resets_sort initState "tv"
    (fun _ => Except.ok { products := some cannedProducts, total := 2 })
    { products := some cannedProducts, total := 2 } cannedProducts
    rfl rfl rfl (by simp [cannedProducts])
  exact ⟨h.1, h.2.1⟩

end ProductSearch
